import Mathlib

/-!
Verification of the Session and Resilient-Request layer of the Bria-FIBO
frontend: token expiry checking, proactive refresh scheduling, the
single-flight 401 refresh interceptor of lib/api.ts, and the retry/backoff
policy of the error utilities.

Times are modelled as exact rationals (epoch seconds, or milliseconds where
the source works in milliseconds).  A JWT is represented by the outcome of
decoding its middle segment: either `undecodable` (any failure of
`JSON.parse(atob(token.split(".")[1]))`, which the source catches) or
`decoded exp` carrying the numeric `exp` claim.
-/

/-- Outcome of decoding the payload (middle, base64url JSON) segment of a
bearer token: `undecodable` when `JSON.parse(atob(token.split(".")[1]))`
throws, otherwise `decoded exp` with the numeric `exp` claim in epoch
seconds. -/
inductive TokenPayload where
  | undecodable : TokenPayload
  | decoded (exp : ℚ) : TokenPayload
deriving DecidableEq

namespace ApiLib

/-- Embeds `isTokenExpired` of lib/api.ts: the decoded `exp` claim is
compared against `now + 30` (a 30 second buffer); any decoding failure is
caught and reported as expired.  `now` is `Date.now() / 1000` in epoch
seconds. -/
def isTokenExpired (tok : TokenPayload) (now : ℚ) : Bool :=
  match tok with
  | .undecodable => true
  | .decoded exp => decide (exp < now + 30)

end ApiLib

namespace AuthCtx

/-- Embeds `isTokenExpired` of contexts/AuthContext.tsx, textually the same
function as the one in lib/api.ts. -/
def isTokenExpired (tok : TokenPayload) (now : ℚ) : Bool :=
  match tok with
  | .undecodable => true
  | .decoded exp => decide (exp < now + 30)

/-- Embeds `getTokenExpiration` of AuthContext.tsx: returns
`payload.exp * 1000` (milliseconds), or `null` when decoding throws. -/
def getTokenExpiration (tok : TokenPayload) : Option ℚ :=
  match tok with
  | .undecodable => none
  | .decoded exp => some (exp * 1000)

/-- Embeds `scheduleTokenRefresh` of AuthContext.tsx as a function on the
timer slot (`refreshTimeoutRef`): the result is the refresh timer armed
after the call, as a delay in milliseconds from `nowMs`.  The source first
runs `clearTimeout` on any previously armed timer, so the result does not
depend on `prevTimer`; then, when `getTokenExpiration` yields a truthy
value (a nonzero number, per JS truthiness of `if (expiration)`), it arms
one timer at `Math.max(expiration - Date.now() - 5*60*1000, 60*1000)`,
guarded by `if (refreshTime > 0)`. -/
def scheduleTokenRefresh (_prevTimer : Option ℚ) (tok : TokenPayload)
    (nowMs : ℚ) : Option ℚ :=
  match getTokenExpiration tok with
  | none => none
  | some expiration =>
      if expiration ≠ 0 then
        if 0 < max (expiration - nowMs - 5 * 60 * 1000) (60 * 1000) then
          some (max (expiration - nowMs - 5 * 60 * 1000) (60 * 1000))
        else none
      else none

/-- A bearer token as AuthContext handles it: the raw string stored in
localStorage together with the outcome of decoding its payload segment. -/
structure Tok where
  raw : String
  payload : TokenPayload
deriving DecidableEq

/-- The persisted user entry: the raw string stored under the `user` key
together with the outcome of `JSON.parse` on it (`none` when parsing
throws). -/
structure StoredUser where
  raw : String
  parsed : Option String
deriving DecidableEq

/-- State of the AuthProvider and its collaborators: the React `token` and
`user` state, the two localStorage entries, the armed proactive-refresh
timer (delay in ms), the number of network calls made to the refresh
endpoint, and whether navigation to the login page happened. -/
structure AuthState where
  token : Option Tok
  user : Option String
  storedToken : Option Tok
  storedUser : Option StoredUser
  refreshTimer : Option ℚ
  refreshCalls : Nat
  navigatedToLogin : Bool
deriving DecidableEq

/-- Embeds `logout` of AuthContext.tsx: clear the refresh timeout, null
out the React token and user state, remove both localStorage entries, and
navigate to the login page. -/
def logout (st : AuthState) : AuthState :=
  { st with refreshTimer := none, token := none, user := none,
            storedToken := none, storedUser := none,
            navigatedToLogin := true }

/-- Embeds `refreshToken` of AuthContext.tsx, with the would-be outcome of
the `authAPI.refresh()` network call passed as `result`.  The guard reads
the stored token; when it is absent, empty (falsy) or already expired the
function returns false at once, issuing no network call.  Otherwise the
refresh endpoint is called: on success the new token and user are set and
persisted and the next automatic refresh is scheduled; on failure the
error handler runs `logout()` and returns false. -/
def refreshTokenRun (st : AuthState) (now nowMs : ℚ)
    (result : Except String (Tok × String)) : AuthState × Bool :=
  match st.storedToken with
  | none => (st, false)
  | some cur =>
      if cur.raw = "" then (st, false)
      else if isTokenExpired cur.payload now then (st, false)
      else
        match result with
        | .ok (newTok, usr) =>
            ({ st with refreshCalls := st.refreshCalls + 1,
                       token := some newTok, user := some usr,
                       storedToken := some newTok,
                       storedUser := some ⟨usr, some usr⟩,
                       refreshTimer :=
                         scheduleTokenRefresh st.refreshTimer newTok.payload
                           nowMs },
              true)
        | .error _ =>
            (logout { st with refreshCalls := st.refreshCalls + 1 }, false)

/-- JS validity check of a stored string: truthy (non-empty) and not the
literal strings "undefined" or "null". -/
def validStr (v : String) : Bool :=
  !(v == "") && !(v == "undefined") && !(v == "null")

/-- Embeds `initializeAuth` of AuthContext.tsx, with the would-be outcome
of `authAPI.refresh()` passed as `result`: when both stored entries are
valid, an expired stored token triggers `refreshToken()` and logs out if
that returns false, while a live stored token is installed (if the stored
user parses) and schedules the automatic refresh; invalid or partial
stored data is cleaned out of localStorage (when truthy data is present)
and the session stays unauthenticated. -/
def initAuth (st : AuthState) (now nowMs : ℚ)
    (result : Except String (Tok × String)) : AuthState :=
  match st.storedToken, st.storedUser with
  | some tk, some su =>
      if validStr tk.raw && validStr su.raw then
        if isTokenExpired tk.payload now then
          match refreshTokenRun st now nowMs result with
          | (st1, true) => st1
          | (st1, false) => logout st1
        else
          match su.parsed with
          | some u =>
              { st with token := some tk, user := some u,
                        refreshTimer :=
                          scheduleTokenRefresh st.refreshTimer tk.payload
                            nowMs }
          | none => { st with storedToken := none, storedUser := none }
      else if !(tk.raw == "") || !(su.raw == "") then
        { st with storedToken := none, storedUser := none }
      else st
  | some tk, none =>
      if !(tk.raw == "") then { st with storedToken := none, storedUser := none }
      else st
  | none, some su =>
      if !(su.raw == "") then { st with storedToken := none, storedUser := none }
      else st
  | none, none => st

end AuthCtx

namespace ErrorUtils

/-- Model of an axios error as far as the retry utilities inspect it:
`error.response?.status` (absent when no response was received at all),
`error.code`, `error.message` and `error.name`. -/
structure AxiosErr where
  responseStatus : Option Nat
  code : Option String
  message : String
  name : String
deriving DecidableEq

/-- Embeds `isNetworkError` of the error utilities: no response, and one of
the recognised network-failure markers. -/
def isNetworkError (e : AxiosErr) : Bool :=
  e.responseStatus.isNone &&
    (e.code == some "NETWORK_ERROR" || e.message == "Network Error" ||
      e.name == "NetworkError" || e.code == some "ECONNABORTED")

/-- Embeds `shouldRetryError` of the error utilities: give up at
`retryCount >= 3`; retry a 4xx response only when it is 408 or 429;
otherwise retry on a network error or a status of at least 500. -/
def shouldRetryError (e : AxiosErr) (retryCount : Nat) : Bool :=
  let maxRetries := 3
  if retryCount ≥ maxRetries then false
  else
    match e.responseStatus with
    | some s =>
        if 400 ≤ s ∧ s < 500 then decide (s = 408) || decide (s = 429)
        else isNetworkError e || decide (500 ≤ s)
    | none => isNetworkError e || false

/-- Embeds `getRetryDelay` of the error utilities, with the value of
`Math.random()` (a number in `[0, 1)`) passed in as `rand`:
`Math.min(1000 * 2 ** retryCount, 10000) + rand * 1000`. -/
def getRetryDelay (retryCount : Nat) (rand : ℚ) : ℚ :=
  let baseDelay : ℚ := 1000
  let maxDelay : ℚ := 10000
  let delay := min (baseDelay * 2 ^ retryCount) maxDelay
  delay + rand * 1000

end ErrorUtils

namespace ApiLib

/-- Per-request config as the response interceptor sees it: a caller id
for bookkeeping, the `_retry` marker (absent on a fresh request, modelled
as `false`), and the Authorization bearer token, `none` when the header is
unset. -/
structure CallConfig where
  caller : Nat
  retried : Bool
  authToken : Option String
deriving DecidableEq

/-- Settlement of a queued caller: its queued promise is either resolved
with the (possibly null) token or rejected with the refresh error. -/
inductive Settlement where
  | resolvedWith (caller : Nat) (token : Option String)
  | rejectedWith (caller : Nat) (err : String)
deriving DecidableEq

/-- Caller a settlement belongs to. -/
def Settlement.caller : Settlement → Nat
  | .resolvedWith c _ => c
  | .rejectedWith c _ => c

/-- Embeds `processQueue` of lib/api.ts: each `failedQueue` entry is
settled in order — rejected with the error when one is given, resolved
with the token otherwise — and `failedQueue` is then assigned `[]`.
First component: the settlements in the order performed; second: the
queue left behind. -/
def processQueue (error : Option String) (token : Option String)
    (failedQueue : List CallConfig) : List Settlement × List CallConfig :=
  (failedQueue.map fun c =>
      match error with
      | some e => Settlement.rejectedWith c.caller e
      | none => Settlement.resolvedWith c.caller token,
    [])

/-- Module-level state of lib/api.ts around the response interceptor:
the `isRefreshing` flag, `failedQueue`, the two localStorage entries, the
request that started the in-flight refresh (held by its suspended `await`),
plus instrumentation: how many network calls have been issued to the
refresh endpoint, how many are outstanding, and how many `auth:logout`
events have been dispatched. -/
structure ClientState where
  isRefreshing : Bool
  failedQueue : List CallConfig
  storedToken : Option String
  storedUser : Option String
  initiator : Option CallConfig
  refreshCalls : Nat
  refreshPending : Nat
  logoutEvents : Nat
deriving DecidableEq

/-- Fresh module state with the given persisted entries. -/
def initState (tok usr : Option String) : ClientState :=
  { isRefreshing := false, failedQueue := [], storedToken := tok,
    storedUser := usr, initiator := none, refreshCalls := 0,
    refreshPending := 0, logoutEvents := 0 }

/-- Events at the suspension points of the interceptor: a response coming
back as HTTP 401 for some request, or the awaited refresh endpoint call
resolving or rejecting. -/
inductive Ev where
  | fail401 (cfg : CallConfig)
  | refreshOk (tok : String) (usr : String)
  | refreshErr (err : String)
deriving DecidableEq

/-- Observable actions of one interceptor step: a caller was appended to
`failedQueue`; a network call to the refresh endpoint was issued for a
caller; a queued promise was settled; a request was re-issued through
`apiClient(originalRequest)`; or a failure was surfaced terminally through
`handleApiError`. -/
inductive Action where
  | enqueued (caller : Nat)
  | refreshIssued (caller : Nat)
  | settled (s : Settlement)
  | replayed (cfg : CallConfig)
  | terminal (caller : Nat)
deriving DecidableEq

/-- Net effect of the catch block of the 401 handler: `processQueue`
rejects and drains the queue, both localStorage entries are removed, an
`auth:logout` event is dispatched, `handleApiError` surfaces the failure
to the initiating caller, and the finally block clears `isRefreshing`. -/
def refreshFailure (st : ClientState) (failer : Nat) (err : String) :
    ClientState × List Action :=
  ({ st with isRefreshing := false,
             failedQueue := (processQueue (some err) none st.failedQueue).2,
             storedToken := none, storedUser := none,
             initiator := none, refreshPending := 0,
             logoutEvents := st.logoutEvents + 1 },
    (processQueue (some err) none st.failedQueue).1.map Action.settled
      ++ [.terminal failer])

/-- Embeds the 401 arm of `apiClient.interceptors.response` of lib/api.ts
together with the continuation of the awaited refresh call:

- a 401 on a request already marked `_retry` falls through to
  `handleApiError` (terminal);
- a 401 while `isRefreshing` pushes the caller onto `failedQueue` and
  suspends, issuing nothing;
- otherwise the request is marked `_retry`, the flag is set, and — when a
  truthy token is stored — one network call to the refresh endpoint is
  issued and the handler suspends on it (recording the initiator); with no
  truthy stored token the thrown error takes the catch path at once;
- the refresh resolving saves the new token and user, resolves every
  queued promise with the new token (each queued caller then re-issues its
  original request with the new bearer token), re-issues the initiator
  request, and clears the flag;
- the refresh rejecting takes the catch path: queue rejected with that
  error, storage cleared, `auth:logout` dispatched, flag cleared. -/
def step (st : ClientState) (ev : Ev) : ClientState × List Action :=
  match ev with
  | .fail401 cfg =>
      if cfg.retried then
        (st, [.terminal cfg.caller])
      else if st.isRefreshing then
        ({ st with failedQueue := st.failedQueue ++ [cfg] },
          [.enqueued cfg.caller])
      else
        match st.storedToken with
        | none => refreshFailure st cfg.caller "No token available"
        | some t =>
            if t = "" then refreshFailure st cfg.caller "No token available"
            else
              ({ st with isRefreshing := true,
                         initiator := some { cfg with retried := true },
                         refreshCalls := st.refreshCalls + 1,
                         refreshPending := st.refreshPending + 1 },
                [.refreshIssued cfg.caller])
  | .refreshOk tok usr =>
      match st.initiator with
      | none => (st, [])
      | some orig =>
          ({ st with isRefreshing := false,
                     failedQueue := (processQueue none (some tok) st.failedQueue).2,
                     storedToken := some tok, storedUser := some usr,
                     initiator := none,
                     refreshPending := st.refreshPending - 1 },
            (processQueue none (some tok) st.failedQueue).1.map Action.settled
              ++ [.replayed { orig with authToken := some tok }]
              ++ st.failedQueue.map
                  (fun c => Action.replayed { c with authToken := some tok }))
  | .refreshErr err =>
      match st.initiator with
      | none => (st, [])
      | some orig => refreshFailure st orig.caller err

/-- Runs a list of events from a state, keeping only the state. -/
def stepFold (st : ClientState) (evs : List Ev) : ClientState :=
  evs.foldl (fun s ev => (step s ev).1) st

/-- Single-flight invariant on the module state: never more than one
refresh network call outstanding, the flag up exactly while one is, and an
initiator recorded exactly while one is. -/
def SingleFlightInv (st : ClientState) : Prop :=
  st.refreshPending ≤ 1
    ∧ (st.isRefreshing = true ↔ st.refreshPending = 1)
    ∧ (st.isRefreshing = true ↔ st.initiator.isSome = true)

end ApiLib

section InterceptorClaims

/-- Queued 401 arrivals only append to the queue: one unretried 401 while
the flag is up enqueues the caller and changes nothing else. -/
theorem step_fail401_enqueue (st : ApiLib.ClientState)
    (c : ApiLib.CallConfig) (hrf : st.isRefreshing = true)
    (hc : c.retried = false) :
    ApiLib.step st (.fail401 c)
      = ({ st with failedQueue := st.failedQueue ++ [c] },
          [.enqueued c.caller]) := by
  simp [ApiLib.step, hc, hrf]

/-- Folding unretried 401 arrivals over a refreshing state appends them
all, in order, and touches no other field. -/
theorem stepFold_enqueue (st : ApiLib.ClientState)
    (cfgs : List ApiLib.CallConfig) (hrf : st.isRefreshing = true)
    (hall : ∀ c ∈ cfgs, c.retried = false) :
    ApiLib.stepFold st (cfgs.map ApiLib.Ev.fail401)
      = { st with failedQueue := st.failedQueue ++ cfgs } := by
  induction cfgs generalizing st with
  | nil => simp [ApiLib.stepFold]
  | cons c cs ih =>
      have hc : c.retried = false := hall c (by simp)
      have hstep := step_fail401_enqueue st c hrf hc
      simp only [List.map_cons, ApiLib.stepFold, List.foldl_cons]
      have hbody : (ApiLib.step st (.fail401 c)).1
          = { st with failedQueue := st.failedQueue ++ [c] } := by
        rw [hstep]
      rw [hbody]
      have := ih { st with failedQueue := st.failedQueue ++ [c] } hrf
        (fun c' h => hall c' (by simp [h]))
      simpa [ApiLib.stepFold, List.append_assoc] using this

/-- The single-flight invariant is preserved by every interceptor step. -/
theorem singleFlightInv_step (s : ApiLib.ClientState) (ev : ApiLib.Ev)
    (hinv : ApiLib.SingleFlightInv s) :
    ApiLib.SingleFlightInv (ApiLib.step s ev).1 := by
  cases ev with
  | fail401 cfg =>
      by_cases hr : cfg.retried
      · have h : (ApiLib.step s (.fail401 cfg)).1 = s := by
          simp [ApiLib.step, hr]
        rw [h]; exact hinv
      · have hr' : cfg.retried = false := by simpa using hr
        by_cases hf : s.isRefreshing
        · have h : (ApiLib.step s (.fail401 cfg)).1
              = { s with failedQueue := s.failedQueue ++ [cfg] } := by
            simp [ApiLib.step, hr', hf]
          rw [h]
          simpa [ApiLib.SingleFlightInv] using hinv
        · have hf' : s.isRefreshing = false := by simpa using hf
          have hp0 : s.refreshPending = 0 := by
            obtain ⟨h1, h2, h3⟩ := hinv
            have hne : s.refreshPending ≠ 1 := fun hp => by
              have := h2.mpr hp
              rw [hf'] at this
              exact Bool.noConfusion this
            omega
          rcases ht : s.storedToken with _ | t
          · simp [ApiLib.step, hr', hf', ht, ApiLib.refreshFailure,
              ApiLib.SingleFlightInv]
          · by_cases hte : t = ""
            · simp [ApiLib.step, hr', hf', ht, hte, ApiLib.refreshFailure,
                ApiLib.SingleFlightInv]
            · simp [ApiLib.step, hr', hf', ht, hte, ApiLib.SingleFlightInv, hp0]
  | refreshOk tok usr =>
      rcases hi : s.initiator with _ | o
      · have h : (ApiLib.step s (.refreshOk tok usr)).1 = s := by
          simp [ApiLib.step, hi]
        rw [h]; exact hinv
      · obtain ⟨h1, h2, h3⟩ := hinv
        have hrf : s.isRefreshing = true := h3.mpr (by rw [hi]; rfl)
        have hp1 : s.refreshPending = 1 := h2.mp hrf
        simp [ApiLib.step, hi, ApiLib.SingleFlightInv, hp1]
  | refreshErr err =>
      rcases hi : s.initiator with _ | o
      · have h : (ApiLib.step s (.refreshErr err)).1 = s := by
          simp [ApiLib.step, hi]
        rw [h]; exact hinv
      · simp [ApiLib.step, hi, ApiLib.refreshFailure, ApiLib.SingleFlightInv]

/-- C1.  Single-flight refresh: while a refresh is in flight, every
unretried 401 arrival is appended to `failedQueue`, in order, with no
change to any other field — in particular no further network call to the
refresh endpoint is issued; the single-flight invariant (at most one
refresh outstanding, flag and initiator tracking it) is preserved by every
step and holds initially; and when the one refresh resolves, every queued
caller is resolved with, and replays carrying, the same new access
token. -/
theorem single_flight_refresh (st : ApiLib.ClientState)
    (cfgs : List ApiLib.CallConfig) (orig : ApiLib.CallConfig)
    (tok usr : String) :
    (st.isRefreshing = true → (∀ c ∈ cfgs, c.retried = false) →
      ApiLib.stepFold st (cfgs.map ApiLib.Ev.fail401)
        = { st with failedQueue := st.failedQueue ++ cfgs })
    ∧ (∀ (s : ApiLib.ClientState) (ev : ApiLib.Ev),
        ApiLib.SingleFlightInv s → ApiLib.SingleFlightInv (ApiLib.step s ev).1)
    ∧ (∀ t u, ApiLib.SingleFlightInv (ApiLib.initState t u))
    ∧ (st.initiator = some orig →
        (ApiLib.step st (.refreshOk tok usr)).2
          = (st.failedQueue.map fun c =>
              ApiLib.Action.settled (.resolvedWith c.caller (some tok)))
            ++ [ApiLib.Action.replayed { orig with authToken := some tok }]
            ++ (st.failedQueue.map fun c =>
                ApiLib.Action.replayed { c with authToken := some tok })
        ∧ (ApiLib.step st (.refreshOk tok usr)).1.storedToken = some tok
        ∧ (ApiLib.step st (.refreshOk tok usr)).1.isRefreshing = false) := by
  refine ⟨stepFold_enqueue st cfgs, singleFlightInv_step, ?_, ?_⟩
  · intro t u
    simp [ApiLib.SingleFlightInv, ApiLib.initState]
  · intro hinit
    refine ⟨?_, ?_, ?_⟩ <;>
      simp [ApiLib.step, hinit, ApiLib.processQueue]

/-- Module state with one refresh in flight, started by caller 0, used to
exercise the single-flight theorem on concrete data. -/
def midRefreshState : ApiLib.ClientState :=
  { isRefreshing := true, failedQueue := [],
    storedToken := some "tok0", storedUser := some "u0",
    initiator := some ⟨0, true, some "tok0"⟩,
    refreshCalls := 1, refreshPending := 1, logoutEvents := 0 }

/-- C1 witness: the single-flight theorem evaluated mid-refresh with two
concurrent 401 arrivals and a successful refresh. -/
theorem single_flight_refresh_witness :
    ApiLib.stepFold midRefreshState
        [.fail401 ⟨1, false, some "tok0"⟩, .fail401 ⟨2, false, some "tok0"⟩]
      = { midRefreshState with
            failedQueue := [⟨1, false, some "tok0"⟩, ⟨2, false, some "tok0"⟩] }
    ∧ ApiLib.SingleFlightInv (ApiLib.initState none none)
    ∧ (ApiLib.step midRefreshState (.refreshOk "tok1" "u1")).1.storedToken
        = some "tok1"
    ∧ (ApiLib.step midRefreshState (.refreshOk "tok1" "u1")).1.isRefreshing
        = false := by
  have h := single_flight_refresh midRefreshState
    [⟨1, false, some "tok0"⟩, ⟨2, false, some "tok0"⟩]
    ⟨0, true, some "tok0"⟩ "tok1" "u1"
  exact ⟨h.1 rfl (by decide), h.2.2.1 none none,
    (h.2.2.2 rfl).2.1, (h.2.2.2 rfl).2.2⟩

/-- C2.  FIFO drain: `processQueue` leaves the queue empty, settles every
entry — rejecting each with the same error when one is given, resolving
each with the same token otherwise — and the settled callers, in
settlement order, are exactly the queued callers in enqueue order, so each
queued caller is settled exactly once and none is skipped. -/
theorem fifo_queue_drain (error token : Option String)
    (queue : List ApiLib.CallConfig) :
    (ApiLib.processQueue error token queue).2 = []
    ∧ (∀ e, error = some e →
        (ApiLib.processQueue error token queue).1
          = queue.map fun c => ApiLib.Settlement.rejectedWith c.caller e)
    ∧ (error = none →
        (ApiLib.processQueue error token queue).1
          = queue.map fun c => ApiLib.Settlement.resolvedWith c.caller token)
    ∧ (ApiLib.processQueue error token queue).1.map ApiLib.Settlement.caller
        = queue.map ApiLib.CallConfig.caller := by
  refine ⟨rfl, ?_, ?_, ?_⟩
  · intro e he
    subst he
    rfl
  · intro he
    subst he
    rfl
  · cases error <;>
      simp [ApiLib.processQueue, List.map_map, Function.comp,
        ApiLib.Settlement.caller]

/-- C2 witness: draining a concrete two-element queue on the failure
path. -/
theorem fifo_queue_drain_witness :
    (ApiLib.processQueue (some "boom") none
        [⟨7, false, none⟩, ⟨8, false, some "old"⟩]).2 = []
    ∧ (ApiLib.processQueue (some "boom") none
        [⟨7, false, none⟩, ⟨8, false, some "old"⟩]).1
        = [ApiLib.Settlement.rejectedWith 7 "boom",
            ApiLib.Settlement.rejectedWith 8 "boom"]
    ∧ (ApiLib.processQueue (some "boom") none
        [⟨7, false, none⟩, ⟨8, false, some "old"⟩]).1.map
          ApiLib.Settlement.caller = [7, 8] := by
  have h := fifo_queue_drain (some "boom") none
    [⟨7, false, none⟩, ⟨8, false, some "old"⟩]
  exact ⟨h.1, h.2.1 "boom" rfl, h.2.2.2⟩

/-- C3 (counterexample).  A caller queued behind an in-flight refresh is
replayed without the `_retry` mark: caller 0 starts a refresh, caller 1 is
queued, the refresh succeeds, and caller 1 is replayed with config
`⟨1, false, some "tok1"⟩` — `retried` still false.  When that replay
fails with 401 again, the interceptor does not fail it terminally: it
starts a second refresh on its behalf (the refresh-call count reaches 2),
contradicting the claim for queued callers. -/
theorem queued_replay_counterexample :
    ApiLib.Action.replayed ⟨1, false, some "tok1"⟩
      ∈ (ApiLib.step
          (ApiLib.step
            (ApiLib.step (ApiLib.initState (some "tok0") (some "u0"))
              (.fail401 ⟨0, false, some "tok0"⟩)).1
            (.fail401 ⟨1, false, some "tok0"⟩)).1
          (.refreshOk "tok1" "u1")).2
    ∧ (ApiLib.step
        (ApiLib.step
          (ApiLib.step
            (ApiLib.step (ApiLib.initState (some "tok0") (some "u0"))
              (.fail401 ⟨0, false, some "tok0"⟩)).1
            (.fail401 ⟨1, false, some "tok0"⟩)).1
          (.refreshOk "tok1" "u1")).1
        (.fail401 ⟨1, false, some "tok1"⟩)).2 = [.refreshIssued 1]
    ∧ (ApiLib.step
        (ApiLib.step
          (ApiLib.step
            (ApiLib.step (ApiLib.initState (some "tok0") (some "u0"))
              (.fail401 ⟨0, false, some "tok0"⟩)).1
            (.fail401 ⟨1, false, some "tok0"⟩)).1
          (.refreshOk "tok1" "u1")).1
        (.fail401 ⟨1, false, some "tok1"⟩)).1.refreshCalls = 2
    ∧ (ApiLib.step
        (ApiLib.step
          (ApiLib.step
            (ApiLib.step (ApiLib.initState (some "tok0") (some "u0"))
              (.fail401 ⟨0, false, some "tok0"⟩)).1
            (.fail401 ⟨1, false, some "tok0"⟩)).1
          (.refreshOk "tok1" "u1")).1
        (.fail401 ⟨1, false, some "tok1"⟩)).2 ≠ [.terminal 1] := by
  refine ⟨?_, ?_, ?_, ?_⟩ <;> decide

/-- C3 (amended).  At-most-one 401 replay for the call that initiated the
refresh: a 401 on any request already marked `_retry` is terminal — the
state is untouched, so no further refresh and no further attempt is
triggered by it; the initiating request is marked `_retry := true` before
its one refresh is issued; and on refresh success it is replayed exactly
once, the mark intact.  (Queued callers are replayed without the mark, so
the guarantee does not extend to them — see the counterexample.) -/
theorem at_most_one_replay (st : ApiLib.ClientState)
    (cfg : ApiLib.CallConfig) (t tok usr : String) :
    (cfg.retried = true →
      ApiLib.step st (.fail401 cfg) = (st, [.terminal cfg.caller]))
    ∧ (cfg.retried = false → st.isRefreshing = false →
        st.storedToken = some t → t ≠ "" →
        (ApiLib.step st (.fail401 cfg)).1.initiator
            = some { cfg with retried := true }
        ∧ (ApiLib.step st (.fail401 cfg)).1.refreshCalls
            = st.refreshCalls + 1
        ∧ (ApiLib.step st (.fail401 cfg)).2 = [.refreshIssued cfg.caller])
    ∧ (st.initiator = some cfg →
        ApiLib.Action.replayed { cfg with authToken := some tok }
          ∈ (ApiLib.step st (.refreshOk tok usr)).2
        ∧ ({ cfg with authToken := some tok } : ApiLib.CallConfig).retried
            = cfg.retried) := by
  refine ⟨?_, ?_, ?_⟩
  · intro hr
    simp [ApiLib.step, hr]
  · intro hr hf ht hte
    refine ⟨?_, ?_, ?_⟩ <;> simp [ApiLib.step, hr, hf, ht, hte]
  · intro hi
    exact ⟨by simp [ApiLib.step, hi], rfl⟩

/-- C3 witness: the amended statement on fresh concrete states — a
retried 401 is terminal, an unretried one issues the single refresh. -/
theorem at_most_one_replay_witness :
    ApiLib.step (ApiLib.initState (some "tok0") (some "u0"))
        (.fail401 ⟨5, true, some "tok0"⟩)
      = (ApiLib.initState (some "tok0") (some "u0"), [.terminal 5])
    ∧ (ApiLib.step (ApiLib.initState (some "tok0") (some "u0"))
        (.fail401 ⟨6, false, some "tok0"⟩)).1.refreshCalls = 1
    ∧ ApiLib.Action.replayed ⟨0, true, some "tok1"⟩
        ∈ (ApiLib.step midRefreshState (.refreshOk "tok1" "u1")).2 := by
  have h1 := at_most_one_replay (ApiLib.initState (some "tok0") (some "u0"))
    ⟨5, true, some "tok0"⟩ "tok0" "x" "y"
  have h2 := at_most_one_replay (ApiLib.initState (some "tok0") (some "u0"))
    ⟨6, false, some "tok0"⟩ "tok0" "x" "y"
  have h3 := at_most_one_replay midRefreshState
    ⟨0, true, some "tok0"⟩ "tok0" "tok1" "u1"
  exact ⟨h1.1 rfl, (h2.2.1 rfl rfl rfl (by decide)).2.1,
    (h3.2.2 rfl).1⟩

/-- C4.  Refresh-failure cascade with unconditional cleanup: when the
awaited refresh call rejects, every queued caller is rejected with that
same error, in order, before the failure is surfaced terminally to the
initiator; both persisted entries are removed; one `auth:logout` event is
published; and the flag is cleared — and on the success path, too, the
flag is cleared and the queue drained. -/
theorem refresh_failure_cascade (st : ApiLib.ClientState)
    (orig : ApiLib.CallConfig) (err tok usr : String)
    (hinit : st.initiator = some orig) :
    (ApiLib.step st (.refreshErr err)).1.isRefreshing = false
    ∧ (ApiLib.step st (.refreshErr err)).1.failedQueue = []
    ∧ (ApiLib.step st (.refreshErr err)).1.storedToken = none
    ∧ (ApiLib.step st (.refreshErr err)).1.storedUser = none
    ∧ (ApiLib.step st (.refreshErr err)).1.logoutEvents
        = st.logoutEvents + 1
    ∧ (ApiLib.step st (.refreshErr err)).2
        = (st.failedQueue.map fun c =>
            ApiLib.Action.settled (.rejectedWith c.caller err))
          ++ [.terminal orig.caller]
    ∧ (ApiLib.step st (.refreshOk tok usr)).1.isRefreshing = false
    ∧ (ApiLib.step st (.refreshOk tok usr)).1.failedQueue = [] := by
  refine ⟨?_, ?_, ?_, ?_, ?_, ?_, ?_, ?_⟩ <;>
    simp [ApiLib.step, hinit, ApiLib.refreshFailure, ApiLib.processQueue]

/-- Module state with one refresh in flight and one queued caller, used to
exercise the failure cascade on concrete data. -/
def midRefreshQueuedState : ApiLib.ClientState :=
  { isRefreshing := true, failedQueue := [⟨2, false, some "tok0"⟩],
    storedToken := some "tok0", storedUser := some "u0",
    initiator := some ⟨0, true, some "tok0"⟩,
    refreshCalls := 1, refreshPending := 1, logoutEvents := 0 }

/-- C4 witness: the failure cascade evaluated mid-refresh with caller 2
queued and caller 0 awaiting the refresh. -/
theorem refresh_failure_cascade_witness :
    (ApiLib.step midRefreshQueuedState (.refreshErr "boom")).1.isRefreshing
        = false
    ∧ (ApiLib.step midRefreshQueuedState (.refreshErr "boom")).1.storedToken
        = none
    ∧ (ApiLib.step midRefreshQueuedState (.refreshErr "boom")).1.logoutEvents
        = 1
    ∧ (ApiLib.step midRefreshQueuedState (.refreshErr "boom")).2
        = [ApiLib.Action.settled (.rejectedWith 2 "boom"), .terminal 0]
    ∧ (ApiLib.step midRefreshQueuedState (.refreshOk "t1" "u1")).1.failedQueue
        = [] := by
  have h := refresh_failure_cascade midRefreshQueuedState
    ⟨0, true, some "tok0"⟩ "boom" "t1" "u1" rfl
  exact ⟨h.1, h.2.2.1, h.2.2.2.2.1, h.2.2.2.2.2.1, h.2.2.2.2.2.2.2⟩

end InterceptorClaims

section ExpiryClaims

/-- C5.  Expiry predicate: for every token and time, `isTokenExpired` of
lib/api.ts is true exactly when the decoded `exp` claim is below
`now + 30`; it is true on every undecodable token; it agrees everywhere
with the copy in AuthContext.tsx; and at the boundary, `exp = now + 29` is
expired while `exp = now + 31` is valid. -/
theorem token_expiry_predicate (now exp : ℚ) :
    (ApiLib.isTokenExpired (.decoded exp) now = true ↔ exp < now + 30)
    ∧ ApiLib.isTokenExpired .undecodable now = true
    ∧ (∀ tok : TokenPayload,
        ApiLib.isTokenExpired tok now = AuthCtx.isTokenExpired tok now)
    ∧ ApiLib.isTokenExpired (.decoded (now + 29)) now = true
    ∧ ApiLib.isTokenExpired (.decoded (now + 31)) now = false := by
  refine ⟨by simp [ApiLib.isTokenExpired], rfl, ?_, ?_, ?_⟩
  · intro tok; cases tok <;> rfl
  · simp [ApiLib.isTokenExpired]; linarith
  · simp [ApiLib.isTokenExpired]; linarith

end ExpiryClaims

section StartupClaims

/-- With a valid-but-expired stored token and a valid stored user,
`initializeAuth` calls `refreshToken`, whose expired-token guard returns
false without touching the state or the network, and then logs out. -/
theorem initAuth_expired_logout (st : AuthCtx.AuthState)
    (tk : AuthCtx.Tok) (su : AuthCtx.StoredUser) (now nowMs : ℚ)
    (result : Except String (AuthCtx.Tok × String))
    (htk : st.storedToken = some tk) (hsu : st.storedUser = some su)
    (hv1 : AuthCtx.validStr tk.raw = true)
    (hv2 : AuthCtx.validStr su.raw = true)
    (hexp : AuthCtx.isTokenExpired tk.payload now = true) :
    AuthCtx.initAuth st now nowMs result = AuthCtx.logout st := by
  have hraw : ¬ (tk.raw = "") := by
    intro h
    rw [AuthCtx.validStr, h] at hv1
    simp at hv1
  have hrt : AuthCtx.refreshTokenRun st now nowMs result = (st, false) := by
    simp only [AuthCtx.refreshTokenRun, htk]
    rw [if_neg hraw, if_pos hexp]
  simp only [AuthCtx.initAuth, htk, hsu]
  rw [if_pos (by simp [hv1, hv2]), if_pos hexp, hrt]

/-- AuthProvider state at startup holding a stored token that expired 100
seconds before `now = 1000000` and a well-formed stored user. -/
def expiredStartState : AuthCtx.AuthState :=
  { token := none, user := none,
    storedToken := some ⟨"h.p.s", .decoded 999900⟩,
    storedUser := some ⟨"u", some "u"⟩,
    refreshTimer := none, refreshCalls := 0, navigatedToLogin := false }

/-- C9 (counterexample).  The claim predicts that startup with an expired
stored credential issues one refresh call and, the endpoint succeeding,
authenticates the session.  On the code, even with a refresh result that
would succeed, `initializeAuth` issues zero network calls — the guard in
`refreshToken` returns false on an expired token — and the session is
logged out: no token installed, navigation to the login page. -/
theorem startup_expired_counterexample :
    (AuthCtx.initAuth expiredStartState 1000000 1000000000
        (.ok (⟨"t2", .decoded 2000000⟩, "u2"))).refreshCalls = 0
    ∧ (AuthCtx.initAuth expiredStartState 1000000 1000000000
        (.ok (⟨"t2", .decoded 2000000⟩, "u2"))).token = none
    ∧ (AuthCtx.initAuth expiredStartState 1000000 1000000000
        (.ok (⟨"t2", .decoded 2000000⟩, "u2"))).navigatedToLogin = true
    ∧ AuthCtx.isTokenExpired (.decoded 999900) 1000000 = true := by
  have hexp : AuthCtx.isTokenExpired (.decoded 999900) 1000000 = true := by
    simp only [AuthCtx.isTokenExpired, decide_eq_true_eq]
    norm_num
  have h := initAuth_expired_logout expiredStartState
    ⟨"h.p.s", .decoded 999900⟩ ⟨"u", some "u"⟩ 1000000 1000000000
    (.ok (⟨"t2", .decoded 2000000⟩, "u2")) rfl rfl (by decide) (by decide) hexp
  rw [h]
  exact ⟨rfl, rfl, rfl, hexp⟩

/-- C9 (amended).  If at startup the persisted store holds a valid token
string whose `exp` claim is already past together with a valid stored
user, `initializeAuth` detects the expiry and calls `refreshToken`, which
returns false without issuing any call to the refresh endpoint (its guard
rejects expired tokens), so the session is torn down instead of recovered:
state and storage are cleared, no timer is armed, and the app navigates to
the login page; the refresh-call count is unchanged whatever the endpoint
would have answered. -/
theorem startup_expired_no_refresh (st : AuthCtx.AuthState)
    (tk : AuthCtx.Tok) (su : AuthCtx.StoredUser) (now nowMs : ℚ)
    (result : Except String (AuthCtx.Tok × String))
    (htk : st.storedToken = some tk) (hsu : st.storedUser = some su)
    (hv1 : AuthCtx.validStr tk.raw = true)
    (hv2 : AuthCtx.validStr su.raw = true)
    (hexp : AuthCtx.isTokenExpired tk.payload now = true) :
    AuthCtx.initAuth st now nowMs result = AuthCtx.logout st
    ∧ (AuthCtx.initAuth st now nowMs result).refreshCalls = st.refreshCalls
    ∧ (AuthCtx.initAuth st now nowMs result).token = none
    ∧ (AuthCtx.initAuth st now nowMs result).refreshTimer = none
    ∧ (AuthCtx.initAuth st now nowMs result).navigatedToLogin = true := by
  have h := initAuth_expired_logout st tk su now nowMs result htk hsu hv1 hv2
    hexp
  rw [h]
  exact ⟨rfl, rfl, rfl, rfl, rfl⟩

/-- C9 witness: the amended statement evaluated on the concrete expired
startup state, with a refresh outcome that would have succeeded. -/
theorem startup_expired_no_refresh_witness :
    AuthCtx.initAuth expiredStartState 1000000 1000000000
        (.ok (⟨"t3", .decoded 3000000⟩, "u3"))
      = AuthCtx.logout expiredStartState
    ∧ (AuthCtx.initAuth expiredStartState 1000000 1000000000
        (.ok (⟨"t3", .decoded 3000000⟩, "u3"))).refreshCalls = 0
    ∧ (AuthCtx.initAuth expiredStartState 1000000 1000000000
        (.ok (⟨"t3", .decoded 3000000⟩, "u3"))).token = none
    ∧ (AuthCtx.initAuth expiredStartState 1000000 1000000000
        (.ok (⟨"t3", .decoded 3000000⟩, "u3"))).refreshTimer = none
    ∧ (AuthCtx.initAuth expiredStartState 1000000 1000000000
        (.ok (⟨"t3", .decoded 3000000⟩, "u3"))).navigatedToLogin = true :=
  startup_expired_no_refresh expiredStartState
    ⟨"h.p.s", .decoded 999900⟩ ⟨"u", some "u"⟩ 1000000 1000000000
    (.ok (⟨"t3", .decoded 3000000⟩, "u3")) rfl rfl (by decide) (by decide)
    (by simp only [AuthCtx.isTokenExpired, decide_eq_true_eq]; norm_num)

end StartupClaims

section SchedulerClaims

/-- C6 (counterexample).  The claim predicts that every decodable token arms
exactly one timer with delay `max(expiresAt - now - 5min, 1min)`.  A
decodable token whose `exp` claim is `0` falsifies it: `expiration` is the
falsy number `0`, so `if (expiration)` skips arming and no timer results,
although the claimed delay (`60000` ms here) is well defined. -/
theorem proactive_schedule_zero_exp_counterexample :
    AuthCtx.scheduleTokenRefresh (some 12345) (.decoded 0) 1700000000000 = none
    ∧ AuthCtx.scheduleTokenRefresh (some 12345) (.decoded 0) 1700000000000
        ≠ some (max ((0 : ℚ) * 1000 - 1700000000000 - 5 * 60 * 1000)
            (60 * 1000)) := by
  have h : AuthCtx.scheduleTokenRefresh (some 12345) (.decoded 0)
      1700000000000 = none := by
    simp only [AuthCtx.scheduleTokenRefresh, AuthCtx.getTokenExpiration]
    rw [if_neg (by norm_num)]
  exact ⟨h, by rw [h]; exact fun hc => Option.noConfusion hc⟩

/-- C6 (amended).  For every decodable token whose `exp` claim is nonzero,
`scheduleTokenRefresh` discards whatever timer was previously pending and
arms exactly one new timer with delay `max(expiresAt - now - 5min, 1min)`
milliseconds; the delay is never below one minute; a token expiring in 10
minutes fires 5 minutes from now, and a token expiring in 30 seconds still
fires at the computed max, one minute from now. -/
theorem proactive_schedule_delay (prev : Option ℚ) (exp nowMs : ℚ)
    (hexp : exp ≠ 0) :
    AuthCtx.scheduleTokenRefresh prev (.decoded exp) nowMs
      = some (max (exp * 1000 - nowMs - 5 * 60 * 1000) (60 * 1000))
    ∧ 60 * 1000 ≤ max (exp * 1000 - nowMs - 5 * 60 * 1000) ((60 : ℚ) * 1000)
    ∧ AuthCtx.scheduleTokenRefresh none (.decoded 1700000600) 1700000000000
        = some 300000
    ∧ AuthCtx.scheduleTokenRefresh none (.decoded 1700000030) 1700000000000
        = some 60000 := by
  have hmul : exp * 1000 ≠ 0 := by
    intro h
    rcases mul_eq_zero.mp h with h | h
    · exact hexp h
    · norm_num at h
  have e1 : AuthCtx.scheduleTokenRefresh none (.decoded 1700000600)
      1700000000000 = some 300000 := by
    simp only [AuthCtx.scheduleTokenRefresh, AuthCtx.getTokenExpiration]
    rw [if_pos (by norm_num : ((1700000600 : ℚ) * 1000) ≠ 0),
      if_pos (lt_of_lt_of_le (by norm_num) (le_max_right _ _)),
      show ((1700000600 : ℚ) * 1000 - 1700000000000 - 5 * 60 * 1000) = 300000
        from by norm_num,
      max_eq_left (by norm_num)]
  have e2 : AuthCtx.scheduleTokenRefresh none (.decoded 1700000030)
      1700000000000 = some 60000 := by
    simp only [AuthCtx.scheduleTokenRefresh, AuthCtx.getTokenExpiration]
    rw [if_pos (by norm_num : ((1700000030 : ℚ) * 1000) ≠ 0),
      if_pos (lt_of_lt_of_le (by norm_num) (le_max_right _ _)),
      max_eq_right (by norm_num)]
    norm_num
  refine ⟨?_, le_max_right _ _, e1, e2⟩
  have hpos : (0 : ℚ) < max (exp * 1000 - nowMs - 5 * 60 * 1000) (60 * 1000) :=
    lt_of_lt_of_le (by norm_num) (le_max_right _ _)
  simp only [AuthCtx.scheduleTokenRefresh, AuthCtx.getTokenExpiration]
  rw [if_pos hmul, if_pos hpos]

/-- C6 witness: the amended statement at a concrete token expiring ten
minutes after a concrete now. -/
theorem proactive_schedule_delay_witness :
    AuthCtx.scheduleTokenRefresh none (.decoded 1700000600) 1700000000000
      = some (max ((1700000600 : ℚ) * 1000 - 1700000000000 - 5 * 60 * 1000)
          (60 * 1000))
    ∧ 60 * 1000 ≤ max ((1700000600 : ℚ) * 1000 - 1700000000000 - 5 * 60 * 1000)
        ((60 : ℚ) * 1000)
    ∧ AuthCtx.scheduleTokenRefresh none (.decoded 1700000600) 1700000000000
        = some 300000
    ∧ AuthCtx.scheduleTokenRefresh none (.decoded 1700000030) 1700000000000
        = some 60000 :=
  proactive_schedule_delay none 1700000600 1700000000000 (by norm_num)

/-- C6 helper fact kept with the development: the two example delays named
by the spec match the general formula. -/
theorem proactive_schedule_examples :
    max ((1700000600 : ℚ) * 1000 - 1700000000000 - 5 * 60 * 1000)
        ((60 : ℚ) * 1000) = 300000
    ∧ max ((1700000030 : ℚ) * 1000 - 1700000000000 - 5 * 60 * 1000)
        ((60 : ℚ) * 1000) = 60000 := by
  constructor
  · rw [max_eq_left (by norm_num)]; norm_num
  · rw [max_eq_right (by norm_num)]; norm_num

/-- C10.  An undecodable token never arms a timer: `getTokenExpiration`
returns `null` on it (the decode failure is swallowed by the catch), and
`scheduleTokenRefresh` on it cancels whatever timer was pending and arms
none, for every prior timer state and every current time. -/
theorem undecodable_token_never_arms_timer (prev : Option ℚ) (nowMs : ℚ) :
    AuthCtx.getTokenExpiration .undecodable = none
    ∧ AuthCtx.scheduleTokenRefresh prev .undecodable nowMs = none :=
  ⟨rfl, rfl⟩

end SchedulerClaims

section RetryClaims

/-- Status-only axios error, as built for an HTTP error response. -/
def statusErr (s : Nat) : ErrorUtils.AxiosErr :=
  ⟨some s, none, "Request failed", "AxiosError"⟩

/-- Connectionless axios error carrying the classic network marker. -/
def networkErr : ErrorUtils.AxiosErr :=
  ⟨none, none, "Network Error", "AxiosError"⟩

/-- C7.  Retry eligibility: `shouldRetryError` is false whenever
`retryCount ≥ 3`; on a 4xx response it is true exactly for 408 and 429; a
network-level connectionless failure, or a status of at least 500, is
retried while `retryCount < 3`; in particular 400/403/404/422 are never
retried and 408/429/500/502/503/504 and connectionless failures are. -/
theorem retry_eligibility (e : ErrorUtils.AxiosErr) (n s : Nat) :
    (3 ≤ n → ErrorUtils.shouldRetryError e n = false)
    ∧ (n < 3 → e.responseStatus = some s → 400 ≤ s → s < 500 →
        (ErrorUtils.shouldRetryError e n = true ↔ (s = 408 ∨ s = 429)))
    ∧ (n < 3 → ErrorUtils.isNetworkError e = true →
        ErrorUtils.shouldRetryError e n = true)
    ∧ (n < 3 → e.responseStatus = some s → 500 ≤ s →
        ErrorUtils.shouldRetryError e n = true)
    ∧ (∀ m : Nat, ErrorUtils.shouldRetryError (statusErr 400) m = false
        ∧ ErrorUtils.shouldRetryError (statusErr 403) m = false
        ∧ ErrorUtils.shouldRetryError (statusErr 404) m = false
        ∧ ErrorUtils.shouldRetryError (statusErr 422) m = false)
    ∧ (n < 3 → ErrorUtils.shouldRetryError (statusErr 408) n = true
        ∧ ErrorUtils.shouldRetryError (statusErr 429) n = true
        ∧ ErrorUtils.shouldRetryError (statusErr 500) n = true
        ∧ ErrorUtils.shouldRetryError (statusErr 502) n = true
        ∧ ErrorUtils.shouldRetryError (statusErr 503) n = true
        ∧ ErrorUtils.shouldRetryError (statusErr 504) n = true
        ∧ ErrorUtils.shouldRetryError networkErr n = true) := by
  have hnot3 : ∀ m : Nat, ¬ 3 ≤ m → ¬ m ≥ 3 := fun m h => h
  refine ⟨?_, ?_, ?_, ?_, ?_, ?_⟩
  · intro h3
    simp [ErrorUtils.shouldRetryError, h3]
  · intro hn hs h400 h500
    simp only [ErrorUtils.shouldRetryError, hs]
    rw [if_neg (by omega)]
    simp [h400, h500]
  · intro hn hnet
    simp only [ErrorUtils.shouldRetryError]
    rw [if_neg (by omega)]
    rcases h : e.responseStatus with _ | s'
    · simp [hnet]
    · have : ¬ ErrorUtils.isNetworkError e = true := by
        simp [ErrorUtils.isNetworkError, h]
      exact absurd hnet this
  · intro hn hs h500
    simp only [ErrorUtils.shouldRetryError, hs]
    rw [if_neg (by omega)]
    rw [if_neg (by omega)]
    simp [h500]
  · intro m
    by_cases hm : 3 ≤ m
    · simp [ErrorUtils.shouldRetryError, statusErr, hm]
    · refine ⟨?_, ?_, ?_, ?_⟩ <;>
        (simp only [ErrorUtils.shouldRetryError, statusErr]
         rw [if_neg (by omega)]
         simp)
  · intro hn
    refine ⟨?_, ?_, ?_, ?_, ?_, ?_, ?_⟩ <;>
      (simp only [ErrorUtils.shouldRetryError, statusErr, networkErr]
       rw [if_neg (by omega)]
       simp [ErrorUtils.isNetworkError])

/-- C7 witness: retry eligibility evaluated at attempt 0, status 429. -/
theorem retry_eligibility_witness :
    ErrorUtils.shouldRetryError (statusErr 429) 0 = true ∧
    ErrorUtils.shouldRetryError (statusErr 400) 0 = false := by
  have h := retry_eligibility (statusErr 429) 0 429
  exact ⟨(h.2.1 (by norm_num) rfl (by norm_num) (by norm_num)).mpr (Or.inr rfl),
    (h.2.2.2.2.1 0).1⟩

/-- C8.  Backoff bounds: with the uniform draw `rand` of `Math.random()` in
`[0, 1)`, `getRetryDelay i rand` equals `min(1000 * 2 ^ i, 10000)` plus the
jitter `rand * 1000`, which lies in `[0, 1000)`; hence the delay for
attempt 0 lies in `[1000, 2000)` and the delay for attempt 5 lies in
`[10000, 11000)` — the exponential term saturates at the 10-second
ceiling. -/
theorem backoff_bounds (i : Nat) (rand : ℚ) (h0 : 0 ≤ rand) (h1 : rand < 1) :
    ErrorUtils.getRetryDelay i rand
      = min (1000 * 2 ^ i) 10000 + rand * 1000
    ∧ 0 ≤ rand * 1000 ∧ rand * 1000 < 1000
    ∧ 1000 ≤ ErrorUtils.getRetryDelay 0 rand
    ∧ ErrorUtils.getRetryDelay 0 rand < 2000
    ∧ 10000 ≤ ErrorUtils.getRetryDelay 5 rand
    ∧ ErrorUtils.getRetryDelay 5 rand < 11000 := by
  have hj0 : (0 : ℚ) ≤ rand * 1000 := by positivity
  have hj1 : rand * 1000 < 1000 := by linarith
  have h05 : ErrorUtils.getRetryDelay 0 rand = 1000 + rand * 1000 := by
    simp [ErrorUtils.getRetryDelay]
    norm_num
  have h55 : ErrorUtils.getRetryDelay 5 rand = 10000 + rand * 1000 := by
    simp [ErrorUtils.getRetryDelay]
    norm_num
  refine ⟨rfl, hj0, hj1, ?_, ?_, ?_, ?_⟩
  · rw [h05]; linarith
  · rw [h05]; linarith
  · rw [h55]; linarith
  · rw [h55]; linarith

/-- C8 witness: backoff bounds at attempt 3 with `Math.random() = 1/2`. -/
theorem backoff_bounds_witness :
    ErrorUtils.getRetryDelay 3 (1 / 2)
      = min (1000 * 2 ^ 3) 10000 + (1 / 2) * 1000
    ∧ 0 ≤ (1 / 2 : ℚ) * 1000 ∧ (1 / 2 : ℚ) * 1000 < 1000
    ∧ 1000 ≤ ErrorUtils.getRetryDelay 0 (1 / 2)
    ∧ ErrorUtils.getRetryDelay 0 (1 / 2) < 2000
    ∧ 10000 ≤ ErrorUtils.getRetryDelay 5 (1 / 2)
    ∧ ErrorUtils.getRetryDelay 5 (1 / 2) < 11000 :=
  backoff_bounds 3 (1 / 2) (by norm_num) (by norm_num)

end RetryClaims
